import Mathlib

/-!
Shallow embedding of `src/charts/generate_chart.py` (generate_chart and the
`__main__` block), and verification of the claims of the specification
against it.

Modelling conventions:
* Python floats are modelled as exact rationals (`ℚ`); the claims settled
  here are sign/order properties of the limit arithmetic, stated over that
  idealisation (NaN/Infinity inputs are outside the modelled fragment).
* Python datetimes are modelled as integer seconds since the epoch; the
  standard-library leaf `datetime.fromisoformat` is modelled by a parser for
  the `YYYY-MM-DD[THH:MM[:SS]][±HH:MM]` fragment with the usual calendar
  validation (leap years, days per month, year ≥ 1).
* The standard-library leaf `json.loads` plus the top-level field extraction
  (lines 30–40, `.get` with defaults) is modelled by the `Loaded` input type:
  `Loaded.failed e` stands for an exception raised by `json.loads` (a
  `JSONDecodeError`, which is a `ValueError`) or by `.get` on a non-dict
  top-level value (an `AttributeError`) — both are raised inside the `try`
  block before any point is processed; `Loaded.ok d` stands for a
  successfully extracted options dictionary.
* The matplotlib/PNG back end is a leaf dependency: a figure is modelled as
  the structured description of everything the code passes to matplotlib
  (colors, plotted series, fills, axis locator/format, y-limits, labels),
  and `plt.savefig` is an arbitrary byte-producing function `render`
  supplied as a parameter; `savefig` always emits at least the 8-byte PNG
  signature, which is the hypothesis `∀ r, render r ≠ []` used below.
* Exceptions are explicit: the body of the `try` block (lines 28–226) is
  `tryBody : … → Except PyErr Figure`, and `generate_chart` wraps it with
  the `except Exception` handler of lines 228–250.
-/

namespace GenerateChart

/-- A JSON scalar value as it may appear in a data-point field. -/
inductive JVal where
  | str (s : String)
  | num (q : ℚ)
  | jbool (b : Bool)
  | null
deriving Repr, DecidableEq

/-- The Python exception classes that can arise in the modelled fragment,
each carrying its message (`str(e)`). -/
inductive PyErr where
  | valueError (m : String)
  | typeError (m : String)
  | attributeError (m : String)
deriving Repr, DecidableEq

/-- `str(e)`: the message of an exception. -/
def PyErr.msg : PyErr → String
  | .valueError m => m
  | .typeError m => m
  | .attributeError m => m

/-- Python truthiness of a JSON scalar (`if date_str:`). -/
def truthy : JVal → Bool
  | .str s => s ≠ ""
  | .num q => q ≠ 0
  | .jbool b => b
  | .null => false

/-- Decimal digit value of a character, if it is a digit. -/
def dv (c : Char) : Option Nat :=
  if c.isDigit then some (c.toNat - 48) else none

/-- Consume a maximal run of digits: accumulated value, number of digits
consumed, and the rest of the input. -/
def takeDigits (acc n : Nat) : List Char → Nat × Nat × List Char
  | [] => (acc, n, [])
  | c :: cs =>
    match dv c with
    | some d => takeDigits (acc * 10 + d) (n + 1) cs
    | none => (acc, n, c :: cs)

/-- Model of the builtin `float(s)` on strings, for the plain decimal
fragment: optional surrounding spaces, optional sign, digits with an
optional fractional part (at least one digit in total).  Exponent forms,
`inf`/`nan` and underscores are outside the modelled fragment. -/
def parseDecimal (s : String) : Option ℚ :=
  let cs := ((s.toList.dropWhile (· = ' ')).reverse.dropWhile (· = ' ')).reverse
  let signAndRest : Bool × List Char :=
    match cs with
    | '-' :: r => (true, r)
    | '+' :: r => (false, r)
    | r => (false, r)
  let neg := signAndRest.1
  let body := signAndRest.2
  let ipart := takeDigits 0 0 body
  let mag : Option ℚ :=
    match ipart.2.2 with
    | [] => if ipart.2.1 = 0 then none else some (ipart.1 : ℚ)
    | '.' :: r2 =>
      let fpart := takeDigits 0 0 r2
      if fpart.2.2 = [] ∧ 0 < ipart.2.1 + fpart.2.1 then
        some ((ipart.1 : ℚ) + (fpart.1 : ℚ) / (10 : ℚ) ^ fpart.2.1)
      else none
    | _ => none
  mag.map (fun q => if neg then -q else q)

/-- Model of `float(x)` on a JSON scalar: numbers pass through, booleans
coerce to 0/1, `None` raises `TypeError`, strings are parsed and raise
`ValueError` when unparseable (message texts are faithful in kind, not in
exact wording). -/
def pyFloat : JVal → Except PyErr ℚ
  | .num q => .ok q
  | .jbool b => .ok (if b then 1 else 0)
  | .null => .error (.typeError "float() argument must be a string or a number, not NoneType")
  | .str s =>
    match parseDecimal s with
    | some q => .ok q
    | none => .error (.valueError ("could not convert string to float: " ++ s))

/-- Replace every `'Z'` by `"+00:00"` in a character list. -/
def zreplaceChars : List Char → List Char
  | [] => []
  | c :: cs =>
    if c = 'Z' then '+' :: '0' :: '0' :: ':' :: '0' :: '0' :: zreplaceChars cs
    else c :: zreplaceChars cs

/-- Line 58: `date_str.replace('Z', '+00:00')` (the pattern is a single
character, so per-character replacement is an exact model). -/
def zreplace (s : String) : String := String.mk (zreplaceChars s.toList)

/-- Gregorian leap-year rule. -/
def isLeap (y : Nat) : Bool := (y % 4 = 0 ∧ y % 100 ≠ 0) ∨ y % 400 = 0

/-- Days in a month of a given year. -/
def daysInMonth (y m : Nat) : Nat :=
  if m = 2 then (if isLeap y then 29 else 28)
  else if m = 4 ∨ m = 6 ∨ m = 9 ∨ m = 11 then 30
  else 31

/-- Days from the Unix epoch to the given civil date (proleptic Gregorian,
the standard days-from-civil computation). -/
def daysFromCivil (y m d : Nat) : Int :=
  let yShift : Int := if m ≤ 2 then (y : Int) - 1 else (y : Int)
  let era : Int := yShift / 400
  let yoe : Int := yShift - era * 400
  let mp : Int := ((m : Int) + 9) % 12
  let doy : Int := (153 * mp + 2) / 5 + (d : Int) - 1
  let doe : Int := yoe * 365 + yoe / 4 - yoe / 100 + doy
  era * 146097 + doe - 719468

/-- Parse `HH:MM[:SS]`: seconds past midnight plus the rest of the input. -/
def parseTime : List Char → Option (Nat × List Char)
  | h1 :: h2 :: ':' :: m1 :: m2 :: rest => do
    let a ← dv h1
    let b ← dv h2
    let c ← dv m1
    let d ← dv m2
    let hh := 10 * a + b
    let mm := 10 * c + d
    if hh ≤ 23 ∧ mm ≤ 59 then
      match rest with
      | ':' :: s1 :: s2 :: rest2 => do
        let e ← dv s1
        let f ← dv s2
        let ss := 10 * e + f
        if ss ≤ 59 then some (hh * 3600 + mm * 60 + ss, rest2) else none
      | _ => some (hh * 3600 + mm * 60, rest)
    else none
  | _ => none

/-- Parse an optional trailing UTC offset `±HH:MM`; returns its value in
seconds (an empty rest means a naive datetime, offset 0 in the model). -/
def parseOffset : List Char → Option Int
  | [] => some 0
  | sgn :: h1 :: h2 :: ':' :: m1 :: m2 :: [] => do
    let a ← dv h1
    let b ← dv h2
    let c ← dv m1
    let d ← dv m2
    let secs : Int := ((10 * a + b) * 3600 + (10 * c + d) * 60 : Nat)
    if sgn = '+' then some secs
    else if sgn = '-' then some (-secs)
    else none
  | _ => none

/-- Parse the ISO fragment `YYYY-MM-DD[THH:MM[:SS]][±HH:MM]` (a space is
also accepted as the date/time separator) into epoch seconds, validating
the calendar; `none` models `fromisoformat` raising `ValueError`. -/
def parseISO : List Char → Option Int
  | y1 :: y2 :: y3 :: y4 :: '-' :: mo1 :: mo2 :: '-' :: d1 :: d2 :: rest => do
    let a ← dv y1
    let b ← dv y2
    let c ← dv y3
    let d ← dv y4
    let e ← dv mo1
    let f ← dv mo2
    let g ← dv d1
    let h ← dv d2
    let y := ((10 * a + b) * 10 + c) * 10 + d
    let m := 10 * e + f
    let day := 10 * g + h
    if 1 ≤ y ∧ 1 ≤ m ∧ m ≤ 12 ∧ 1 ≤ day ∧ day ≤ daysInMonth y m then
      let base := daysFromCivil y m day * 86400
      match rest with
      | [] => some base
      | sep :: rest2 =>
        if sep = 'T' ∨ sep = ' ' then do
          let tm ← parseTime rest2
          let off ← parseOffset tm.2
          some (base + (tm.1 : Int) - off)
        else none
    else none
  | _ => none

/-- Model of `datetime.fromisoformat` on the already-`Z`-replaced string. -/
def fromisoformat (s : String) : Option Int := parseISO s.toList

/-- A data point as a JSON object restricted to the four keys the code
reads (`point.get` on any other key is irrelevant); `none` means the key is
absent, `some v` that it is present with value `v`. -/
structure RawPoint where
  timestamp : Option JVal := none
  x : Option JVal := none
  sol_balance : Option JVal := none
  y : Option JVal := none
deriving Repr, DecidableEq

/-- Outcome of one iteration of the parsing loop (lines 52–62) on one
point. -/
inductive PointOutcome where
  /-- Both appends ran: the point contributes `(date, value)`. -/
  | included (date : Int) (value : ℚ)
  /-- `date_str` was falsy: the `if` body is skipped, nothing is printed. -/
  | skippedSilently
  /-- A `ValueError`/`TypeError` was caught by the inner handler, which
  prints the warning of line 62. -/
  | skippedWarned (e : PyErr)
  /-- An exception not matching `(ValueError, TypeError)` escapes the loop
  (an `AttributeError` from `.replace` on a non-string) and aborts the
  whole `try` body. -/
  | fatal (e : PyErr)
deriving Repr, DecidableEq

/-- Lines 52–62, one point: `date_str = point.get('timestamp',
point.get('x', ''))`; `value = float(point.get('sol_balance',
point.get('y', 0)))`; then, if `date_str` is truthy, parse it (after the
`Z` replacement) and append.  The `float` call runs before the truthiness
test, so its exceptions win. -/
def processPoint (p : RawPoint) : PointOutcome :=
  let dateStr := p.timestamp.getD (p.x.getD (JVal.str ""))
  match pyFloat (p.sol_balance.getD (p.y.getD (JVal.num 0))) with
  | .error e => .skippedWarned e
  | .ok v =>
    if truthy dateStr then
      match dateStr with
      | .str s =>
        match fromisoformat (zreplace s) with
        | some t => .included t v
        | none => .skippedWarned (.valueError ("Invalid isoformat string: " ++ zreplace s))
      | _ => .fatal (.attributeError "object has no attribute replace")
    else .skippedSilently

/-- The whole parsing loop: collects the included `(date, value)` pairs in
order; a fatal exception discards everything and propagates. -/
def processPoints : List RawPoint → Except PyErr (List (Int × ℚ))
  | [] => .ok []
  | p :: ps =>
    match processPoint p with
    | .fatal e => .error e
    | .included t v =>
      match processPoints ps with
      | .ok rest => .ok ((t, v) :: rest)
      | .error e => .error e
    | .skippedSilently => processPoints ps
    | .skippedWarned _ => processPoints ps

/-- The chart options extracted on lines 33–40 (`data.get` with its
defaults already applied). -/
structure ChartData where
  chart_type : String := "balance"
  x_axis_label : String := "Time"
  y_axis_label : String := "Balance"
  tooltip_format : String := "$\x7bvalue:.2f\x7d"
  title : String := "Wallet Balance History"
  show_value_labels : Bool := false
  is_synthetic : Bool := false
  data : List RawPoint := []
deriving Repr, DecidableEq

/-- Result of `json.loads` plus the top-level option extraction: `failed e`
models an exception raised before the point loop (`JSONDecodeError`, which
is a `ValueError`, or `AttributeError` from `.get` on a non-dict). -/
inductive Loaded where
  | failed (e : PyErr)
  | ok (d : ChartData)
deriving Repr, DecidableEq

/-- Trend direction of lines 83–100. -/
inductive Trend where
  | positive
  | negative
  | neutral
deriving Repr, DecidableEq

/-- `values[-1]` of the non-empty list `v :: ws`. -/
def lastValue (v : ℚ) : List ℚ → ℚ
  | [] => v
  | w :: ws => lastValue w ws

/-- Lines 83–100: compare first and last value when there are more than one. -/
def trendOf : List ℚ → Trend
  | [] => .neutral
  | [_] => .neutral
  | v :: w :: ws =>
    if lastValue w ws > v then .positive
    else if lastValue w ws < v then .negative
    else .neutral

/-- The theme line color of lines 68–81. -/
def baseLineColor (dark : Bool) : String :=
  if dark then "#4da6ff" else "#1a75ff"

/-- The theme fill color of lines 68–81. -/
def baseFillColor (dark : Bool) : String :=
  if dark then "rgba(77, 166, 255, 0.2)" else "rgba(26, 117, 255, 0.1)"

/-- The grid color of lines 68–81. -/
def gridColor (dark : Bool) : String :=
  if dark then "gray" else "lightgray"

/-- The matplotlib date locator/formatter pair chosen on lines 121–134. -/
structure DateAxisConfig where
  fmt : String
  locator : String
  interval : Nat
deriving Repr, DecidableEq

/-- Lines 121–134: pick the locator and label format from
`date_range.days` (the floor of the span in whole days). -/
def dateAxisConfig (spanDays : Int) : DateAxisConfig :=
  if spanDays < 2 then ⟨"%H:%M", "HourLocator", 3⟩
  else if spanDays < 14 then ⟨"%m/%d", "DayLocator", 1⟩
  else if spanDays < 180 then ⟨"%m/%d", "WeekdayLocator", 2⟩
  else ⟨"%b %Y", "MonthLocator", 1⟩

/-- Python `min` over a list (the default is never reached on the non-empty
lists the code applies it to). -/
def listMin [LinearOrder α] (dflt : α) : List α → α
  | [] => dflt
  | a :: as => as.foldl min a

/-- Python `max` over a list. -/
def listMax [LinearOrder α] (dflt : α) : List α → α
  | [] => dflt
  | a :: as => as.foldl max a

/-- Lines 143–154: the raw y-limits before the degenerate-case fix-up. -/
def yLimitsRaw (chartType : String) (minValue maxValue : ℚ) : ℚ × ℚ :=
  let yRange := maxValue - minValue
  if chartType = "pnl" then
    (min 0 (minValue - 1/10 * |yRange|), max 0 (maxValue + 1/10 * |yRange|))
  else
    (max 0 (minValue - 1/20 * |yRange|), maxValue + 1/10 * |yRange|)

/-- Lines 156–162: the `min_y == max_y` special case (`max_y = 0.1` when
both are zero, else widen by ±10%). -/
def fixDegenerate (lo hi : ℚ) : ℚ × ℚ :=
  if lo = hi then
    if lo = 0 then (lo, 1/10)
    else (9/10 * lo, 11/10 * hi)
  else (lo, hi)

/-- Lines 143–164: y-limits including the `min_y == max_y` special case. -/
def yLimits (chartType : String) (minValue maxValue : ℚ) : ℚ × ℚ :=
  fixDegenerate (yLimitsRaw chartType minValue maxValue).1
    (yLimitsRaw chartType minValue maxValue).2

/-- One `fill_between(dates, 0, series, color=…)` call. -/
structure FillSpec where
  color : String
  series : List ℚ
deriving Repr, DecidableEq

/-- Everything the code hands to matplotlib for a successfully parsed
series: the structured description of the rendered chart. -/
structure Figure where
  dark : Bool
  chartType : String
  trend : Trend
  lineColor : String
  fillColor : String
  fills : List FillSpec
  dates : List Int
  values : List ℚ
  axis : DateAxisConfig
  yLim : ℚ × ℚ
  useKMFormatter : Bool
  xLabel : String
  yLabel : String
  title : String
  isSynthetic : Bool
  showValueLabels : Bool
deriving Repr, DecidableEq

/-- Lines 67–213 on a non-empty parsed series: colors (with the pnl-only
trend override of lines 87–96), the plot call, the fills of lines 107–116,
the date-axis choice of lines 121–134, and the y-limits of lines 142–164. -/
def buildFigure (d : ChartData) (dark : Bool) (pts : List (Int × ℚ)) : Figure :=
  let dates := pts.map Prod.fst
  let values := pts.map Prod.snd
  let trend := trendOf values
  let lineColor :=
    if trend = Trend.positive ∧ d.chart_type = "pnl" then "#00b33c"
    else if trend = Trend.negative ∧ d.chart_type = "pnl" then "#ff3333"
    else baseLineColor dark
  let fillColor :=
    if trend = Trend.positive ∧ d.chart_type = "pnl" then "rgba(0, 179, 60, 0.2)"
    else if trend = Trend.negative ∧ d.chart_type = "pnl" then "rgba(255, 51, 51, 0.2)"
    else baseFillColor dark
  let fills :=
    if d.chart_type = "balance" then [FillSpec.mk fillColor values]
    else if d.chart_type = "pnl" then
      [FillSpec.mk "rgba(0, 179, 60, 0.2)" (values.map (fun v => max v 0)),
       FillSpec.mk "rgba(255, 51, 51, 0.2)" (values.map (fun v => min v 0))]
    else []
  let spanSeconds := listMax 0 dates - listMin 0 dates
  let minValue := listMin 0 values
  let maxValue := listMax 0 values
  { dark := dark
    chartType := d.chart_type
    trend := trend
    lineColor := lineColor
    fillColor := fillColor
    fills := fills
    dates := dates
    values := values
    axis := dateAxisConfig (spanSeconds / 86400)
    yLim := yLimits d.chart_type minValue maxValue
    useKMFormatter := decide (1000 ≤ maxValue)
    xLabel := d.x_axis_label
    yLabel := d.y_axis_label
    title := d.title
    isSynthetic := d.is_synthetic
    showValueLabels := d.show_value_labels }

/-- The body of the `try` block, lines 28–226: raise on an empty `data`
array (line 43), run the point loop, raise when nothing parsed (line 65),
else build the figure. -/
def tryBody : Loaded → Bool → Except PyErr Figure
  | .failed e, _ => .error e
  | .ok d, dark =>
    if d.data.isEmpty then .error (.valueError "No data points provided")
    else
      match processPoints d.data with
      | .error e => .error e
      | .ok pts =>
        if pts.isEmpty then .error (.valueError "No valid data points could be parsed")
        else .ok (buildFigure d dark pts)

/-- What `generate_chart` returns: a chart figure, or the error image of
lines 228–250, whose only content is the text drawn by line 240. -/
inductive ChartResult where
  | chart (fig : Figure)
  | errorImage (text : String) (dark : Bool)
deriving Repr, DecidableEq

/-- `generate_chart` (lines 17–250): the `try` body wrapped in the
`except Exception` handler, which renders the message as text. -/
def generate_chart (input : Loaded) (dark : Bool) : ChartResult :=
  match tryBody input dark with
  | .ok fig => .chart fig
  | .error e => .errorImage ("Error generating chart: " ++ e.msg) dark

/-- Whether a result is a real chart (not the error image). -/
def ChartResult.isChart : ChartResult → Bool
  | .chart _ => true
  | .errorImage _ _ => false

/-- The y-limits of a chart result, when it is a chart. -/
def chartYLim : ChartResult → Option (ℚ × ℚ)
  | .chart f => some f.yLim
  | .errorImage _ _ => none

/-- The plotted values of a chart result, when it is a chart. -/
def chartValues : ChartResult → Option (List ℚ)
  | .chart f => some f.values
  | .errorImage _ _ => none

/-- The stroke color of a chart result, when it is a chart. -/
def chartLineColor : ChartResult → Option String
  | .chart f => some f.lineColor
  | .errorImage _ _ => none

/-- The date-axis configuration of a chart result, when it is a chart. -/
def chartAxis : ChartResult → Option DateAxisConfig
  | .chart f => some f.axis
  | .errorImage _ _ => none

/-- The base64 alphabet. -/
def b64Alphabet : List Char :=
  "ABCDEFGHIJKLMNOPQRSTUVWXYZabcdefghijklmnopqrstuvwxyz0123456789+/".toList

/-- The base64 digit for a 6-bit value. -/
def b64Char (n : Nat) : Char := b64Alphabet.getD n '?'

/-- Standard base64 of a byte list, three bytes to four characters with
`=` padding (model of `base64.b64encode(...).decode('utf-8')`). -/
def base64Chunks : List Nat → List Char
  | [] => []
  | [a] => [b64Char (a / 4), b64Char (a % 4 * 16), '=', '=']
  | [a, b] => [b64Char (a / 4), b64Char (a % 4 * 16 + b / 16), b64Char (b % 16 * 4), '=']
  | a :: b :: c :: rest =>
    b64Char (a / 4) :: b64Char (a % 4 * 16 + b / 16) ::
      b64Char (b % 16 * 4 + c / 64) :: b64Char (c % 64) :: base64Chunks rest

/-- Base64 encoding as a string. -/
def base64Encode (bytes : List Nat) : String := String.mk (base64Chunks bytes)

/-- Outcome of running the `__main__` block (lines 252–266). -/
inductive ProcResult where
  /-- Fewer than two arguments: usage message, `sys.exit(1)`. -/
  | usageExit1
  /-- `img_str` truthy: it is printed to stdout and the process exits 0. -/
  | printedImage (img : String)
  /-- `img_str` falsy: `sys.exit(1)` without output. -/
  | exit1Empty
deriving Repr, DecidableEq

/-- The `__main__` block, lines 252–266, parameterised by the `json.loads`
leaf (`loads`) and the savefig/PNG leaf (`render`): check the argument
count, read `dark_mode` from `argv[2]`, call `generate_chart`, and print
the result when it is truthy (a non-empty string). -/
def lowerStr (s : String) : String := String.mk (s.toList.map Char.toLower)

def runMain (loads : String → Loaded) (render : ChartResult → List Nat)
    (argv : List String) : ProcResult :=
  if argv.length < 2 then .usageExit1
  else
    let dataJson := argv.getD 1 ""
    let dark := decide (2 < argv.length) && (lowerStr (argv.getD 2 "") == "true")
    let img := base64Encode (render (generate_chart (loads dataJson) dark))
    if img ≠ "" then .printedImage img else .exit1Empty

/-- The four tick-granularity tiers named by the specification. -/
inductive SpecTickTier where
  | hour
  | day
  | week
  | month
deriving Repr, DecidableEq

/-- Modelled from the spec: the claimed tier selection — "sub-day → hour
ticks; sub-2-weeks → daily; sub-6-months → weekly; else monthly"
(thresholds 1, 14 and 180 days).  Written from the spec's words, for
comparison with `dateAxisConfig`, which is written from the code. -/
def specTickTier (spanDays : Int) : SpecTickTier :=
  if spanDays < 1 then .hour
  else if spanDays < 14 then .day
  else if spanDays < 180 then .week
  else .month

/-- The tier a code-side locator belongs to. -/
def tierOfConfig (cfg : DateAxisConfig) : Option SpecTickTier :=
  if cfg.locator = "HourLocator" then some .hour
  else if cfg.locator = "DayLocator" then some .day
  else if cfg.locator = "WeekdayLocator" then some .week
  else if cfg.locator = "MonthLocator" then some .month
  else none

/-! ### Helper lemmas -/

theorem foldl_min_le_init [LinearOrder α] (l : List α) (x : α) : l.foldl min x ≤ x := by
  induction l generalizing x with
  | nil => exact le_refl x
  | cons a as ih => exact le_trans (ih (min x a)) (min_le_left x a)

theorem foldl_min_le [LinearOrder α] {l : List α} {v : α} (x : α) (hv : v ∈ l) :
    l.foldl min x ≤ v := by
  induction l generalizing x with
  | nil => cases hv
  | cons a as ih =>
    rcases List.mem_cons.mp hv with h | h
    · subst h
      exact le_trans (foldl_min_le_init as (min x v)) (min_le_right x v)
    · exact ih _ h

theorem foldl_min_eq_or_mem [LinearOrder α] (l : List α) (x : α) :
    l.foldl min x = x ∨ l.foldl min x ∈ l := by
  induction l generalizing x with
  | nil => exact Or.inl rfl
  | cons a as ih =>
    rcases ih (min x a) with h | h
    · rcases min_choice x a with hm | hm
      · exact Or.inl (by rw [List.foldl_cons, h, hm])
      · exact Or.inr (by rw [List.foldl_cons, h, hm]; exact List.mem_cons_self a as)
    · exact Or.inr (List.mem_cons_of_mem a h)

theorem le_foldl_max_init [LinearOrder α] (l : List α) (x : α) : x ≤ l.foldl max x := by
  induction l generalizing x with
  | nil => exact le_refl x
  | cons a as ih => exact le_trans (le_max_left x a) (ih (max x a))

theorem le_foldl_max [LinearOrder α] {l : List α} {v : α} (x : α) (hv : v ∈ l) :
    v ≤ l.foldl max x := by
  induction l generalizing x with
  | nil => cases hv
  | cons a as ih =>
    rcases List.mem_cons.mp hv with h | h
    · subst h
      exact le_trans (le_max_right x v) (le_foldl_max_init as (max x v))
    · exact ih _ h

theorem foldl_max_eq_or_mem [LinearOrder α] (l : List α) (x : α) :
    l.foldl max x = x ∨ l.foldl max x ∈ l := by
  induction l generalizing x with
  | nil => exact Or.inl rfl
  | cons a as ih =>
    rcases ih (max x a) with h | h
    · rcases max_choice x a with hm | hm
      · exact Or.inl (by rw [List.foldl_cons, h, hm])
      · exact Or.inr (by rw [List.foldl_cons, h, hm]; exact List.mem_cons_self a as)
    · exact Or.inr (List.mem_cons_of_mem a h)

theorem listMin_le [LinearOrder α] (dflt : α) {l : List α} {v : α} (hv : v ∈ l) :
    listMin dflt l ≤ v := by
  cases l with
  | nil => cases hv
  | cons a as =>
    rcases List.mem_cons.mp hv with h | h
    · subst h; exact foldl_min_le_init as v
    · exact foldl_min_le a h

theorem le_listMax [LinearOrder α] (dflt : α) {l : List α} {v : α} (hv : v ∈ l) :
    v ≤ listMax dflt l := by
  cases l with
  | nil => cases hv
  | cons a as =>
    rcases List.mem_cons.mp hv with h | h
    · subst h; exact le_foldl_max_init as v
    · exact le_foldl_max a h

theorem listMin_mem [LinearOrder α] (dflt : α) {l : List α} (h : l ≠ []) :
    listMin dflt l ∈ l := by
  cases l with
  | nil => exact absurd rfl h
  | cons a as =>
    show as.foldl min a ∈ a :: as
    rcases foldl_min_eq_or_mem as a with h1 | h1
    · rw [h1]; exact List.mem_cons_self a as
    · exact List.mem_cons_of_mem a h1

theorem listMax_mem [LinearOrder α] (dflt : α) {l : List α} (h : l ≠ []) :
    listMax dflt l ∈ l := by
  cases l with
  | nil => exact absurd rfl h
  | cons a as =>
    show as.foldl max a ∈ a :: as
    rcases foldl_max_eq_or_mem as a with h1 | h1
    · rw [h1]; exact List.mem_cons_self a as
    · exact List.mem_cons_of_mem a h1

theorem listMin_le_listMax [LinearOrder α] (dflt : α) {l : List α} (h : l ≠ []) :
    listMin dflt l ≤ listMax dflt l :=
  listMin_le dflt (listMax_mem dflt h)

theorem lastValue_mem_cons (w : ℚ) (ws : List ℚ) : lastValue w ws ∈ w :: ws := by
  induction ws generalizing w with
  | nil => exact List.mem_singleton.mpr rfl
  | cons u us ih => exact List.mem_cons_of_mem w (ih u)

/-- A strictly increasing parsed series of length ≥ 2 has trend `positive`. -/
theorem trendOf_pos {values : List ℚ} (h2 : 2 ≤ values.length)
    (hmono : values.Pairwise (· < ·)) : trendOf values = Trend.positive := by
  match values with
  | [] => simp at h2
  | [_] => simp at h2
  | v :: w :: ws =>
    have hv : v < lastValue w ws :=
      (List.pairwise_cons.mp hmono).1 _ (lastValue_mem_cons w ws)
    show (if lastValue w ws > v then Trend.positive
      else if lastValue w ws < v then Trend.negative else Trend.neutral) = Trend.positive
    rw [if_pos hv]

/-- A strictly decreasing parsed series of length ≥ 2 has trend `negative`. -/
theorem trendOf_neg {values : List ℚ} (h2 : 2 ≤ values.length)
    (hmono : values.Pairwise (· > ·)) : trendOf values = Trend.negative := by
  match values with
  | [] => simp at h2
  | [_] => simp at h2
  | v :: w :: ws =>
    have hv : lastValue w ws < v :=
      (List.pairwise_cons.mp hmono).1 _ (lastValue_mem_cons w ws)
    show (if lastValue w ws > v then Trend.positive
      else if lastValue w ws < v then Trend.negative else Trend.neutral) = Trend.negative
    rw [if_neg (not_lt.mpr hv.le), if_pos hv]

/-- Inverting a successful `generate_chart`: the `try` body succeeded. -/
theorem generate_chart_ok {input : Loaded} {dark : Bool} {fig : Figure}
    (h : generate_chart input dark = ChartResult.chart fig) :
    tryBody input dark = Except.ok fig := by
  unfold generate_chart at h
  cases ht : tryBody input dark with
  | ok f => rw [ht] at h; injection h with h; rw [h]
  | error e => rw [ht] at h; exact absurd h (by simp)

/-- Inverting a successful `try` body: the input was a dict, the loop
produced a non-empty list of points, and the figure is built from them. -/
theorem tryBody_ok_inv {input : Loaded} {dark : Bool} {fig : Figure}
    (h : tryBody input dark = Except.ok fig) :
    ∃ d pts, input = Loaded.ok d ∧ processPoints d.data = Except.ok pts ∧ pts ≠ [] ∧
      fig = buildFigure d dark pts := by
  cases input with
  | failed e => exact absurd h (by simp [tryBody])
  | ok d =>
    simp only [tryBody] at h
    by_cases hd : d.data.isEmpty
    · rw [if_pos hd] at h; exact absurd h (by simp)
    · rw [if_neg hd] at h
      cases hp : processPoints d.data with
      | error e => simp only [hp] at h; exact absurd h (by simp)
      | ok pts =>
        simp only [hp] at h
        by_cases hpe : pts.isEmpty
        · rw [if_pos hpe] at h; exact absurd h (by simp)
        · rw [if_neg hpe] at h
          injection h with h
          exact ⟨d, pts, rfl, hp, by simpa using hpe, h.symm⟩

theorem buildFigure_chartType (d : ChartData) (dark : Bool) (pts : List (Int × ℚ)) :
    (buildFigure d dark pts).chartType = d.chart_type := rfl

theorem buildFigure_values (d : ChartData) (dark : Bool) (pts : List (Int × ℚ)) :
    (buildFigure d dark pts).values = pts.map Prod.snd := rfl

theorem buildFigure_dates (d : ChartData) (dark : Bool) (pts : List (Int × ℚ)) :
    (buildFigure d dark pts).dates = pts.map Prod.fst := rfl

theorem buildFigure_yLim (d : ChartData) (dark : Bool) (pts : List (Int × ℚ)) :
    (buildFigure d dark pts).yLim =
      yLimits d.chart_type (listMin 0 (pts.map Prod.snd)) (listMax 0 (pts.map Prod.snd)) := rfl

theorem buildFigure_axis (d : ChartData) (dark : Bool) (pts : List (Int × ℚ)) :
    (buildFigure d dark pts).axis =
      dateAxisConfig
        ((listMax 0 (pts.map Prod.fst) - listMin 0 (pts.map Prod.fst)) / 86400) := rfl

theorem buildFigure_lineColor (d : ChartData) (dark : Bool) (pts : List (Int × ℚ)) :
    (buildFigure d dark pts).lineColor =
      (if trendOf (pts.map Prod.snd) = Trend.positive ∧ d.chart_type = "pnl" then "#00b33c"
       else if trendOf (pts.map Prod.snd) = Trend.negative ∧ d.chart_type = "pnl" then "#ff3333"
       else baseLineColor dark) := rfl

theorem buildFigure_fillColor (d : ChartData) (dark : Bool) (pts : List (Int × ℚ)) :
    (buildFigure d dark pts).fillColor =
      (if trendOf (pts.map Prod.snd) = Trend.positive ∧ d.chart_type = "pnl" then
        "rgba(0, 179, 60, 0.2)"
       else if trendOf (pts.map Prod.snd) = Trend.negative ∧ d.chart_type = "pnl" then
        "rgba(255, 51, 51, 0.2)"
       else baseFillColor dark) := rfl

theorem buildFigure_trend (d : ChartData) (dark : Bool) (pts : List (Int × ℚ)) :
    (buildFigure d dark pts).trend = trendOf (pts.map Prod.snd) := rfl

theorem yLimitsRaw_pnl (minV maxV : ℚ) :
    yLimitsRaw "pnl" minV maxV =
      (min 0 (minV - 1/10 * |maxV - minV|), max 0 (maxV + 1/10 * |maxV - minV|)) := by
  unfold yLimitsRaw
  rw [if_pos rfl]

theorem yLimitsRaw_nonPnl (ct : String) (hct : ct ≠ "pnl") (minV maxV : ℚ) :
    yLimitsRaw ct minV maxV =
      (max 0 (minV - 1/20 * |maxV - minV|), maxV + 1/10 * |maxV - minV|) := by
  unfold yLimitsRaw
  rw [if_neg hct]

theorem fixDegenerate_straddle (lo hi : ℚ) (hlo : lo ≤ 0) (hhi : 0 ≤ hi) :
    (fixDegenerate lo hi).1 ≤ 0 ∧ 0 ≤ (fixDegenerate lo hi).2 ∧
    (fixDegenerate lo hi).1 < (fixDegenerate lo hi).2 ∧
    (lo < 0 → (fixDegenerate lo hi).1 < 0) ∧
    (0 < hi → 0 < (fixDegenerate lo hi).2) := by
  unfold fixDegenerate
  by_cases heq : lo = hi
  · have hl0 : lo = 0 := le_antisymm hlo (heq ▸ hhi)
    rw [if_pos heq, if_pos hl0]
    refine ⟨hlo, by norm_num, ?_, ?_, ?_⟩
    · rw [hl0]; norm_num
    · intro h; exact absurd hl0 (ne_of_lt h)
    · intro _; norm_num
  · rw [if_neg heq]
    exact ⟨hlo, hhi, lt_of_le_of_ne (hlo.trans hhi) heq,
      fun h => h, fun h => h⟩

theorem fixDegenerate_lo_nonneg (lo hi : ℚ) (hlo : 0 ≤ lo) :
    0 ≤ (fixDegenerate lo hi).1 ∧ (lo = 0 → (fixDegenerate lo hi).1 = 0) := by
  unfold fixDegenerate
  by_cases heq : lo = hi
  · by_cases hl0 : lo = 0
    · rw [if_pos heq, if_pos hl0]
      exact ⟨hlo, fun _ => hl0⟩
    · rw [if_pos heq, if_neg hl0]
      constructor
      · have : 0 < lo := lt_of_le_of_ne hlo (Ne.symm hl0)
        nlinarith
      · intro h; exact absurd h hl0
  · rw [if_neg heq]
    exact ⟨hlo, fun h => h⟩

theorem fixDegenerate_order (lo hi : ℚ) (hlo : 0 ≤ lo) (hle : lo ≤ hi) :
    (fixDegenerate lo hi).1 < (fixDegenerate lo hi).2 := by
  unfold fixDegenerate
  by_cases heq : lo = hi
  · by_cases hl0 : lo = 0
    · rw [if_pos heq, if_pos hl0, hl0]; norm_num
    · rw [if_pos heq, if_neg hl0]
      have : 0 < lo := lt_of_le_of_ne hlo (Ne.symm hl0)
      show 9/10 * lo < 11/10 * hi
      rw [← heq]
      nlinarith
  · rw [if_neg heq]
    exact lt_of_le_of_ne hle heq

/-- The y-limit guarantees of the `pnl` branch (lines 147–150 plus the
fix-up): zero is always inside the closed interval, the interval is never
empty or inverted, and zero is strictly inside on a side where data
crosses it. -/
theorem yLimits_pnl (minV maxV : ℚ) (hle : minV ≤ maxV) :
    (yLimits "pnl" minV maxV).1 ≤ 0 ∧ 0 ≤ (yLimits "pnl" minV maxV).2 ∧
    (yLimits "pnl" minV maxV).1 < (yLimits "pnl" minV maxV).2 ∧
    (minV < 0 → (yLimits "pnl" minV maxV).1 < 0) ∧
    (0 < maxV → 0 < (yLimits "pnl" minV maxV).2) := by
  have habs : |maxV - minV| = maxV - minV := abs_of_nonneg (by linarith)
  have hr : (0 : ℚ) ≤ maxV - minV := by linarith
  unfold yLimits
  rw [yLimitsRaw_pnl, habs]
  have hA : min 0 (minV - 1/10 * (maxV - minV)) ≤ 0 := min_le_left _ _
  have hB : (0 : ℚ) ≤ max 0 (maxV + 1/10 * (maxV - minV)) := le_max_left _ _
  obtain ⟨h1, h2, h3, h4, h5⟩ := fixDegenerate_straddle _ _ hA hB
  refine ⟨h1, h2, h3, fun hm => h4 ?_, fun hM => h5 ?_⟩
  · calc min 0 (minV - 1/10 * (maxV - minV)) ≤ minV - 1/10 * (maxV - minV) :=
        min_le_right _ _
    _ < 0 := by linarith
  · calc (0 : ℚ) < maxV + 1/10 * (maxV - minV) := by linarith
    _ ≤ max 0 (maxV + 1/10 * (maxV - minV)) := le_max_right _ _

/-- The y-limit guarantees of the non-`pnl` (balance) branch, lines
151–154 plus the fix-up: the lower bound is never negative, and is exactly
0 as soon as the minimum value is ≤ 0. -/
theorem yLimits_balance_lo (ct : String) (hct : ct ≠ "pnl") (minV maxV : ℚ)
    (hle : minV ≤ maxV) :
    0 ≤ (yLimits ct minV maxV).1 ∧ (minV ≤ 0 → (yLimits ct minV maxV).1 = 0) := by
  have habs : |maxV - minV| = maxV - minV := abs_of_nonneg (by linarith)
  unfold yLimits
  rw [yLimitsRaw_nonPnl ct hct, habs]
  have hlo : (0 : ℚ) ≤ max 0 (minV - 1/20 * (maxV - minV)) := le_max_left _ _
  obtain ⟨h1, h2⟩ := fixDegenerate_lo_nonneg _ (maxV + 1/10 * (maxV - minV)) hlo
  refine ⟨h1, fun hm => h2 ?_⟩
  have : minV - 1/20 * (maxV - minV) ≤ 0 := by linarith
  exact max_eq_left this

/-- The y-limits of the non-`pnl` (balance) branch are properly ordered
whenever the maximum value is non-negative. -/
theorem yLimits_balance_order (ct : String) (hct : ct ≠ "pnl") (minV maxV : ℚ)
    (hle : minV ≤ maxV) (hnn : 0 ≤ maxV) :
    (yLimits ct minV maxV).1 < (yLimits ct minV maxV).2 := by
  have habs : |maxV - minV| = maxV - minV := abs_of_nonneg (by linarith)
  unfold yLimits
  rw [yLimitsRaw_nonPnl ct hct, habs]
  apply fixDegenerate_order
  · exact le_max_left _ _
  · apply max_le
    · linarith
    · linarith

theorem base64Chunks_ne_nil {bs : List Nat} (h : bs ≠ []) : base64Chunks bs ≠ [] := by
  match bs with
  | [] => exact absurd rfl h
  | [a] => simp [base64Chunks]
  | [a, b] => simp [base64Chunks]
  | a :: b :: c :: rest => simp [base64Chunks]

theorem base64Encode_length_pos {bs : List Nat} (h : bs ≠ []) :
    0 < (base64Encode bs).length := by
  have hne := base64Chunks_ne_nil h
  unfold base64Encode
  cases hb : base64Chunks bs with
  | nil => exact absurd hb hne
  | cons c cs => simp [String.length, hb]

theorem base64Encode_ne_empty {bs : List Nat} (h : bs ≠ []) : base64Encode bs ≠ "" := by
  intro heq
  have := base64Encode_length_pos h
  rw [heq] at this
  simp at this

/-! ### Witness data -/

/-- A PNG back end emitting the first four bytes of the PNG signature. -/
def wRender : ChartResult → List Nat := fun _ => [137, 80, 78, 71]

/-- A `json.loads` leaf that raises a decode error on every input. -/
def wLoadsFail : String → Loaded :=
  fun _ => Loaded.failed (PyErr.valueError "Expecting value: line 1 column 1 (char 0)")

def wC2empty : ChartData := { data := [] }

def wC2one : ChartData :=
  { data := [{ timestamp := some (JVal.str "2024-01-01"), y := some (JVal.num 5) }] }

def wC4data : ChartData := { chart_type := "pnl", data := [
  { timestamp := some (JVal.str "2024-01-01"), y := some (JVal.num 1) },
  { timestamp := some (JVal.str "2024-01-02"), y := some (JVal.num 2) }] }

def wC4pts : List (Int × ℚ) := [(1704067200, 1), (1704153600, 2)]

def wC4bdata : ChartData := { chart_type := "pnl", data := [
  { timestamp := some (JVal.str "2024-01-01"), y := some (JVal.num (-1)) },
  { timestamp := some (JVal.str "2024-01-02"), y := some (JVal.num 2) }] }

def wC4bpts : List (Int × ℚ) := [(1704067200, -1), (1704153600, 2)]

def wC5data : ChartData := { data := [
  { timestamp := some (JVal.str "2024-01-01"), y := some (JVal.num 0) },
  { timestamp := some (JVal.str "2024-01-02"), y := some (JVal.num 3) }] }

def wC5pts : List (Int × ℚ) := [(1704067200, 0), (1704153600, 3)]

def wC6data : ChartData := { data := [
  { timestamp := some (JVal.str "2024-01-01"), y := some (JVal.num 1) },
  { timestamp := some (JVal.str "2024-01-02"), y := some (JVal.num 2) }] }

def wC6bdata : ChartData := { chart_type := "pnl", data := [
  { timestamp := some (JVal.str "2024-01-01"), y := some (JVal.num 1) },
  { timestamp := some (JVal.str "2024-01-02"), y := some (JVal.num 2) }] }

def wC6bpts : List (Int × ℚ) := [(1704067200, 1), (1704153600, 2)]

def wC7data : ChartData := { data := [
  { timestamp := some (JVal.str "2024-01-01"), y := some (JVal.num (-5)) },
  { timestamp := some (JVal.str "2024-01-02"), y := some (JVal.num (-5)) }] }

def wC7pts : List (Int × ℚ) := [(1704067200, -5), (1704153600, -5)]

def wC8data : ChartData := { data := [
  { timestamp := some (JVal.str "2024-01-01T00:00:00"), y := some (JVal.num 1) },
  { timestamp := some (JVal.str "2024-01-02T12:00:00"), y := some (JVal.num 2) }] }

def wC8pts : List (Int × ℚ) := [(1704067200, 1), (1704196800, 2)]

/-! ### Claims -/

/-- C1: for every input and dark-mode flag, any exception raised inside
`generate_chart` is caught — the result is either the successfully built
chart figure or the error image whose text depicts the exception message —
and, composed with any PNG back end that emits at least one byte, the
caller always receives a non-empty base64 string. -/
theorem c1_exceptions_caught (input : Loaded) (dark : Bool)
    (render : ChartResult → List Nat) (hrender : ∀ r, render r ≠ []) :
    ((∃ fig, tryBody input dark = Except.ok fig ∧
        generate_chart input dark = ChartResult.chart fig) ∨
     (∃ e, tryBody input dark = Except.error e ∧
        generate_chart input dark =
          ChartResult.errorImage ("Error generating chart: " ++ e.msg) dark)) ∧
    0 < (base64Encode (render (generate_chart input dark))).length := by
  refine ⟨?_, base64Encode_length_pos (hrender _)⟩
  cases ht : tryBody input dark with
  | ok fig => exact Or.inl ⟨fig, rfl, by simp only [generate_chart, ht]⟩
  | error e => exact Or.inr ⟨e, rfl, by simp only [generate_chart, ht]⟩

/-- Witness for C1: a failing `json.loads` with a 4-byte PNG back end. -/
theorem c1_exceptions_caught_witness :
    0 < (base64Encode (wRender
      (generate_chart (Loaded.failed (PyErr.valueError "boom")) false))).length :=
  (c1_exceptions_caught (Loaded.failed (PyErr.valueError "boom")) false
    wRender (fun r => by simp [wRender])).2

/-- C2 fails on the code: an input with zero data points is routed through
the `raise ValueError` of line 43 into the `except` handler — the result
is the error image, not a chart of a synthesized flat two-point series. -/
theorem c2_counterexample :
    generate_chart (Loaded.ok wC2empty) false =
      ChartResult.errorImage "Error generating chart: No data points provided" false ∧
    (generate_chart (Loaded.ok wC2empty) false).isChart = false := ⟨rfl, rfl⟩

/-- C2 amended: a series with 0 valid points IS treated as an error (the
raised `ValueError` is caught and rendered as the error image); a series
with exactly one valid point does not throw and is rendered as a
one-point chart with neutral trend — no two-point flat series is
synthesized in either case. -/
theorem c2_degenerate_behavior (d : ChartData) (dark : Bool) :
    (d.data = [] →
      generate_chart (Loaded.ok d) dark =
        ChartResult.errorImage "Error generating chart: No data points provided" dark) ∧
    (∀ t v, processPoints d.data = Except.ok [(t, v)] →
      generate_chart (Loaded.ok d) dark = ChartResult.chart (buildFigure d dark [(t, v)]) ∧
      (buildFigure d dark [(t, v)]).values = [v] ∧
      (buildFigure d dark [(t, v)]).trend = Trend.neutral) := by
  constructor
  · intro hd
    have he : d.data.isEmpty = true := by rw [hd]; rfl
    simp only [generate_chart, tryBody, he]
    rfl
  · intro t v hpts
    have hne : d.data.isEmpty = false := by
      cases hdd : d.data with
      | nil => rw [hdd] at hpts; exact absurd hpts (by simp [processPoints])
      | cons a as => rfl
    have h1 : tryBody (Loaded.ok d) dark = Except.ok (buildFigure d dark [(t, v)]) := by
      simp only [tryBody, hne, hpts]
      rfl
    exact ⟨by simp only [generate_chart, h1], rfl, rfl⟩

/-- Witness for C2 at a one-valid-point series. -/
theorem c2_degenerate_behavior_witness :
    generate_chart (Loaded.ok wC2one) false =
      ChartResult.chart (buildFigure wC2one false [(1704067200, 5)]) ∧
    (buildFigure wC2one false [(1704067200, 5)]).values = [5] ∧
    (buildFigure wC2one false [(1704067200, 5)]).trend = Trend.neutral :=
  (c2_degenerate_behavior wC2one false).2 1704067200 5 rfl

/-- C3 fails on the code: with a malformed JSON data argument the decode
error is caught inside `generate_chart`, the process prints the base64
error image on stdout and exits 0 — it does not exit non-zero. -/
theorem c3_counterexample :
    runMain wLoadsFail wRender ["generate_chart.py", "not json"] =
      ProcResult.printedImage "iVBORw==" := by decide

/-- C3 amended: when the data argument is malformed JSON, the process does
not fail hard: `generate_chart` catches the decode error (a `ValueError`),
and the `__main__` block prints the base64 encoding of the rendered error
image and exits 0; exit status 1 is reserved for a missing argument. -/
theorem c3_malformed_json_soft_fail (loads : String → Loaded)
    (render : ChartResult → List Nat) (hrender : ∀ r, render r ≠ [])
    (argv : List String) (h2 : 2 ≤ argv.length) (e : PyErr)
    (hmal : loads (argv.getD 1 "") = Loaded.failed e) :
    runMain loads render argv =
      ProcResult.printedImage (base64Encode (render (ChartResult.errorImage
        ("Error generating chart: " ++ e.msg)
        (decide (2 < argv.length) && (lowerStr (argv.getD 2 "") == "true"))))) ∧
    runMain loads render argv ≠ ProcResult.usageExit1 ∧
    runMain loads render argv ≠ ProcResult.exit1Empty := by
  have hlt : ¬ argv.length < 2 := not_lt.mpr h2
  have hg : ∀ b, generate_chart (Loaded.failed e) b =
      ChartResult.errorImage ("Error generating chart: " ++ e.msg) b := fun b => rfl
  have himg : base64Encode (render (ChartResult.errorImage
      ("Error generating chart: " ++ e.msg)
      (decide (2 < argv.length) && (lowerStr (argv.getD 2 "") == "true")))) ≠ "" :=
    base64Encode_ne_empty (hrender _)
  simp only [runMain, hmal, hg]
  rw [if_neg hlt, if_pos himg]
  exact ⟨rfl, by simp, by simp⟩

/-- Witness for C3: a dark-mode invocation with a failing parse. -/
theorem c3_malformed_json_soft_fail_witness :
    runMain wLoadsFail wRender ["generate_chart.py", "bad", "True"] =
      ProcResult.printedImage "iVBORw==" := by
  have h := (c3_malformed_json_soft_fail wLoadsFail wRender (fun r => by simp [wRender])
    ["generate_chart.py", "bad", "True"] (by decide)
    (PyErr.valueError "Expecting value: line 1 column 1 (char 0)") rfl).1
  rw [h]
  rfl

/-- C4 fails on the code: for a pnl chart of the all-positive series
`[1, 2]` — not the all-zero degenerate case — the computed lower limit is
`min(0, 1 − 0.1·1) = 0`, so 0 equals the lower bound instead of lying
strictly between the limits. -/
theorem c4_counterexample :
    chartValues (generate_chart (Loaded.ok wC4data) false) = some [1, 2] ∧
    chartYLim (generate_chart (Loaded.ok wC4data) false) = some (0, 21/10) := by
  have hgc : generate_chart (Loaded.ok wC4data) false =
      ChartResult.chart (buildFigure wC4data false wC4pts) := rfl
  rw [hgc]
  constructor
  · rfl
  · show some (buildFigure wC4data false wC4pts).yLim = _
    rw [buildFigure_yLim]
    have h1 : listMin 0 (wC4pts.map Prod.snd) = 1 := by
      show min 1 2 = 1
      norm_num
    have h2 : listMax 0 (wC4pts.map Prod.snd) = 2 := by
      show max 1 2 = 2
      norm_num
    rw [h1, h2]
    show some (yLimits "pnl" 1 2) = _
    rw [yLimits, yLimitsRaw_pnl]
    have habs : |(2 : ℚ) - 1| = 1 := by
      rw [abs_of_nonneg (by norm_num : (0 : ℚ) ≤ 2 - 1)]
      norm_num
    rw [habs]
    have hmin : min (0 : ℚ) (1 - 1/10 * 1) = 0 := min_eq_left (by norm_num)
    have hmax : max (0 : ℚ) (2 + 1/10 * 1) = 21/10 := by
      rw [max_eq_right (by norm_num : (0 : ℚ) ≤ 2 + 1/10 * 1)]
      norm_num
    rw [hmin, hmax, fixDegenerate, if_neg (by norm_num : ¬ (0 : ℚ) = 21/10)]

/-- C4 amended: for every chart rendered with chart_type `pnl` the y-limits
satisfy `min_y ≤ 0 ≤ max_y` and `min_y < max_y`, and 0 is strictly inside
on each side where the data crosses it (`min_y < 0` when some value is
negative, `0 < max_y` when some value is positive); but 0 can coincide
with a bound whenever all values lie weakly on one side of zero, not only
in the all-zero case. -/
theorem c4_pnl_zero_included (input : Loaded) (dark : Bool) (fig : Figure)
    (hres : generate_chart input dark = ChartResult.chart fig)
    (hty : fig.chartType = "pnl") :
    fig.yLim.1 ≤ 0 ∧ 0 ≤ fig.yLim.2 ∧ fig.yLim.1 < fig.yLim.2 ∧
    ((∃ v ∈ fig.values, v < 0) → fig.yLim.1 < 0) ∧
    ((∃ v ∈ fig.values, 0 < v) → 0 < fig.yLim.2) := by
  obtain ⟨d, pts, hin, hpts, hne, hfig⟩ := tryBody_ok_inv (generate_chart_ok hres)
  subst hfig
  rw [buildFigure_chartType] at hty
  rw [buildFigure_yLim, buildFigure_values, hty]
  have vne : pts.map Prod.snd ≠ [] := by
    cases pts with
    | nil => exact absurd rfl hne
    | cons a as => simp
  have hle := listMin_le_listMax (0 : ℚ) vne
  obtain ⟨h1, h2, h3, h4, h5⟩ := yLimits_pnl _ _ hle
  refine ⟨h1, h2, h3, ?_, ?_⟩
  · rintro ⟨v, hm, hv⟩
    exact h4 (lt_of_le_of_lt (listMin_le 0 hm) hv)
  · rintro ⟨v, hm, hv⟩
    exact h5 (lt_of_lt_of_le hv (le_listMax 0 hm))

/-- Witness for C4 at a pnl series crossing zero. -/
theorem c4_pnl_zero_included_witness :
    (buildFigure wC4bdata false wC4bpts).yLim.1 ≤ 0 ∧
    0 ≤ (buildFigure wC4bdata false wC4bpts).yLim.2 ∧
    (buildFigure wC4bdata false wC4bpts).yLim.1 < (buildFigure wC4bdata false wC4bpts).yLim.2 ∧
    ((∃ v ∈ (buildFigure wC4bdata false wC4bpts).values, v < 0) →
      (buildFigure wC4bdata false wC4bpts).yLim.1 < 0) ∧
    ((∃ v ∈ (buildFigure wC4bdata false wC4bpts).values, 0 < v) →
      0 < (buildFigure wC4bdata false wC4bpts).yLim.2) :=
  c4_pnl_zero_included (Loaded.ok wC4bdata) false
    (buildFigure wC4bdata false wC4bpts) rfl rfl

/-- C5: for every chart rendered with chart_type `balance`, the y-axis
lower bound is never positive when some plotted value is ≤ 0, and is ≥ 0
when all plotted values are positive. -/
theorem c5_balance_lower_bound (input : Loaded) (dark : Bool) (fig : Figure)
    (hres : generate_chart input dark = ChartResult.chart fig)
    (hty : fig.chartType = "balance") :
    ((∃ v ∈ fig.values, v ≤ 0) → fig.yLim.1 ≤ 0) ∧
    ((∀ v ∈ fig.values, 0 < v) → 0 ≤ fig.yLim.1) := by
  obtain ⟨d, pts, hin, hpts, hne, hfig⟩ := tryBody_ok_inv (generate_chart_ok hres)
  subst hfig
  rw [buildFigure_chartType] at hty
  rw [buildFigure_yLim, buildFigure_values, hty]
  have vne : pts.map Prod.snd ≠ [] := by
    cases pts with
    | nil => exact absurd rfl hne
    | cons a as => simp
  have hle := listMin_le_listMax (0 : ℚ) vne
  obtain ⟨h1, h2⟩ := yLimits_balance_lo "balance" (by decide) _ _ hle
  constructor
  · rintro ⟨v, hm, hv⟩
    exact le_of_eq (h2 (le_trans (listMin_le 0 hm) hv))
  · intro _
    exact h1

/-- Witness for C5 at a balance series containing the value 0. -/
theorem c5_balance_lower_bound_witness :
    ((∃ v ∈ (buildFigure wC5data false wC5pts).values, v ≤ 0) →
      (buildFigure wC5data false wC5pts).yLim.1 ≤ 0) ∧
    ((∀ v ∈ (buildFigure wC5data false wC5pts).values, 0 < v) →
      0 ≤ (buildFigure wC5data false wC5pts).yLim.1) :=
  c5_balance_lower_bound (Loaded.ok wC5data) false
    (buildFigure wC5data false wC5pts) rfl rfl

/-- C6 fails on the code: a monotonically increasing series rendered with
the default chart_type `balance` keeps the theme blue stroke `#1a75ff` —
the green/red trend palette of lines 87–96 is applied only when
chart_type is `pnl`, not regardless of chart type. -/
theorem c6_counterexample :
    chartValues (generate_chart (Loaded.ok wC6data) false) = some [1, 2] ∧
    chartLineColor (generate_chart (Loaded.ok wC6data) false) = some "#1a75ff" ∧
    "#1a75ff" ≠ "#00b33c" := by
  refine ⟨rfl, rfl, by decide⟩

/-- C6 amended: the trend palette applies only to pnl charts: for a pnl
chart, a strictly increasing series gets the green stroke/fill pair and a
strictly decreasing one the red pair; for any other chart type the theme
blue stroke/fill pair is used regardless of trend. -/
theorem c6_trend_palette (input : Loaded) (dark : Bool) (fig : Figure)
    (hres : generate_chart input dark = ChartResult.chart fig) :
    (fig.chartType = "pnl" → 2 ≤ fig.values.length →
      (fig.values.Pairwise (· < ·) →
        fig.lineColor = "#00b33c" ∧ fig.fillColor = "rgba(0, 179, 60, 0.2)") ∧
      (fig.values.Pairwise (· > ·) →
        fig.lineColor = "#ff3333" ∧ fig.fillColor = "rgba(255, 51, 51, 0.2)")) ∧
    (fig.chartType ≠ "pnl" →
      fig.lineColor = baseLineColor dark ∧ fig.fillColor = baseFillColor dark) := by
  obtain ⟨d, pts, hin, hpts, hne, hfig⟩ := tryBody_ok_inv (generate_chart_ok hres)
  subst hfig
  rw [buildFigure_chartType, buildFigure_values, buildFigure_lineColor, buildFigure_fillColor]
  constructor
  · intro hty h2
    constructor
    · intro hmono
      rw [trendOf_pos h2 hmono, hty]
      exact ⟨by rw [if_pos ⟨rfl, rfl⟩], by rw [if_pos ⟨rfl, rfl⟩]⟩
    · intro hmono
      rw [trendOf_neg h2 hmono, hty]
      constructor
      · rw [if_neg (by simp), if_pos ⟨rfl, rfl⟩]
      · rw [if_neg (by simp), if_pos ⟨rfl, rfl⟩]
  · intro hty
    constructor
    · rw [if_neg (fun hc => hty hc.2), if_neg (fun hc => hty hc.2)]
    · rw [if_neg (fun hc => hty hc.2), if_neg (fun hc => hty hc.2)]

/-- Witness for C6 at an increasing pnl series. -/
theorem c6_trend_palette_witness :
    (buildFigure wC6bdata false wC6bpts).lineColor = "#00b33c" ∧
    (buildFigure wC6bdata false wC6bpts).fillColor = "rgba(0, 179, 60, 0.2)" :=
  ((c6_trend_palette (Loaded.ok wC6bdata) false
    (buildFigure wC6bdata false wC6bpts) rfl).1 rfl (by decide)).1 (by decide)

/-- C7 fails on the code: for a balance chart whose values are all −5 the
special case does not fire (raw limits are `min_y = max(0, −5) = 0` and
`max_y = −5`, which differ), so the final limits are inverted:
`min_y = 0 > max_y = −5`. -/
theorem c7_counterexample :
    chartYLim (generate_chart (Loaded.ok wC7data) false) = some (0, -5) ∧
    (-5 : ℚ) < 0 := by
  constructor
  · have hgc : generate_chart (Loaded.ok wC7data) false =
        ChartResult.chart (buildFigure wC7data false wC7pts) := rfl
    rw [hgc]
    show some (buildFigure wC7data false wC7pts).yLim = _
    rw [buildFigure_yLim]
    have h1 : listMin 0 (wC7pts.map Prod.snd) = -5 := by
      show min (-5 : ℚ) (-5) = -5
      norm_num
    have h2 : listMax 0 (wC7pts.map Prod.snd) = -5 := by
      show max (-5 : ℚ) (-5) = -5
      norm_num
    rw [h1, h2]
    show some (yLimits wC7data.chart_type (-5) (-5)) = _
    rw [yLimits, yLimitsRaw_nonPnl wC7data.chart_type (by decide)]
    have habs : |(-5 : ℚ) - (-5)| = 0 := by norm_num
    rw [habs]
    have hmax : max (0 : ℚ) (-5 - 1/20 * 0) = 0 :=
      max_eq_left (by norm_num : (-5 : ℚ) - 1/20 * 0 ≤ 0)
    have hhi : (-5 : ℚ) + 1/10 * 0 = -5 := by norm_num
    rw [hmax, hhi, fixDegenerate, if_neg (by norm_num : ¬ (0 : ℚ) = -5)]
  · norm_num

/-- C7 amended: the final y-limits satisfy `min_y < max_y` for every pnl
chart, and for every balance chart in which some plotted value is ≥ 0; a
balance chart whose values are all negative can produce inverted limits
(`min_y > max_y`), which the degenerate-case fix-up does not prevent. -/
theorem c7_ylim_ordered (input : Loaded) (dark : Bool) (fig : Figure)
    (hres : generate_chart input dark = ChartResult.chart fig)
    (hcase : fig.chartType = "pnl" ∨ ∃ v ∈ fig.values, 0 ≤ v) :
    fig.yLim.1 < fig.yLim.2 := by
  obtain ⟨d, pts, hin, hpts, hne, hfig⟩ := tryBody_ok_inv (generate_chart_ok hres)
  subst hfig
  rw [buildFigure_chartType, buildFigure_values] at hcase
  rw [buildFigure_yLim]
  have vne : pts.map Prod.snd ≠ [] := by
    cases pts with
    | nil => exact absurd rfl hne
    | cons a as => simp
  have hle := listMin_le_listMax (0 : ℚ) vne
  by_cases hty : d.chart_type = "pnl"
  · rw [hty]
    exact (yLimits_pnl _ _ hle).2.2.1
  · rcases hcase with h | ⟨v, hm, hv⟩
    · exact absurd h hty
    · exact yLimits_balance_order _ hty _ _ hle (le_trans hv (le_listMax 0 hm))

/-- Witness for C7 at a balance series with a non-negative value. -/
theorem c7_ylim_ordered_witness :
    (buildFigure wC6data false wC6bpts).yLim.1 < (buildFigure wC6data false wC6bpts).yLim.2 :=
  c7_ylim_ordered (Loaded.ok wC6data) false (buildFigure wC6data false wC6bpts) rfl
    (Or.inr ⟨1, by decide, by norm_num⟩)

/-- C8 fails on the code: the first tier extends to spans under two days
(`date_range.days < 2`, line 123), not under one day — a span of 1.5 days
(`days = 1`) gets hour ticks where the spec's tier table ("sub-day → hour
ticks; sub-2-weeks → daily") demands daily ticks. -/
theorem c8_counterexample :
    chartAxis (generate_chart (Loaded.ok wC8data) false) =
      some (DateAxisConfig.mk "%H:%M" "HourLocator" 3) ∧
    tierOfConfig (dateAxisConfig 1) = some SpecTickTier.hour ∧
    specTickTier 1 = SpecTickTier.day := by
  refine ⟨rfl, by decide, by decide⟩

/-- C8 amended: the tick granularity is keyed on the floor of the span in
whole days with thresholds 2, 14 and 180: spans under 2 days get 3-hourly
`%H:%M` ticks, spans of 2 to under 14 days daily `%m/%d` ticks, spans of
14 to under 180 days biweekly weekday `%m/%d` ticks, and longer spans
monthly `%b %Y` ticks. -/
theorem c8_tick_tiers (input : Loaded) (dark : Bool) (fig : Figure)
    (hres : generate_chart input dark = ChartResult.chart fig) :
    (listMax 0 fig.dates - listMin 0 fig.dates < 2 * 86400 →
      fig.axis = DateAxisConfig.mk "%H:%M" "HourLocator" 3) ∧
    (2 * 86400 ≤ listMax 0 fig.dates - listMin 0 fig.dates →
      listMax 0 fig.dates - listMin 0 fig.dates < 14 * 86400 →
      fig.axis = DateAxisConfig.mk "%m/%d" "DayLocator" 1) ∧
    (14 * 86400 ≤ listMax 0 fig.dates - listMin 0 fig.dates →
      listMax 0 fig.dates - listMin 0 fig.dates < 180 * 86400 →
      fig.axis = DateAxisConfig.mk "%m/%d" "WeekdayLocator" 2) ∧
    (180 * 86400 ≤ listMax 0 fig.dates - listMin 0 fig.dates →
      fig.axis = DateAxisConfig.mk "%b %Y" "MonthLocator" 1) := by
  obtain ⟨d, pts, hin, hpts, hne, hfig⟩ := tryBody_ok_inv (generate_chart_ok hres)
  subst hfig
  rw [buildFigure_dates, buildFigure_axis]
  have dne : pts.map Prod.fst ≠ [] := by
    cases pts with
    | nil => exact absurd rfl hne
    | cons a as => simp
  have h0 : 0 ≤ listMax 0 (pts.map Prod.fst) - listMin 0 (pts.map Prod.fst) :=
    sub_nonneg.mpr (listMin_le_listMax 0 dne)
  set s := listMax 0 (pts.map Prod.fst) - listMin 0 (pts.map Prod.fst) with hs
  refine ⟨?_, ?_, ?_, ?_⟩
  · intro h
    unfold dateAxisConfig
    rw [if_pos (by omega : s / 86400 < 2)]
  · intro hl hr
    unfold dateAxisConfig
    rw [if_neg (by omega : ¬ s / 86400 < 2), if_pos (by omega : s / 86400 < 14)]
  · intro hl hr
    unfold dateAxisConfig
    rw [if_neg (by omega : ¬ s / 86400 < 2), if_neg (by omega : ¬ s / 86400 < 14),
      if_pos (by omega : s / 86400 < 180)]
  · intro h
    unfold dateAxisConfig
    rw [if_neg (by omega : ¬ s / 86400 < 2), if_neg (by omega : ¬ s / 86400 < 14),
      if_neg (by omega : ¬ s / 86400 < 180)]

/-- Witness for C8 at a span of 1.5 days (hour tier). -/
theorem c8_tick_tiers_witness :
    (buildFigure wC8data false wC8pts).axis = DateAxisConfig.mk "%H:%M" "HourLocator" 3 :=
  (c8_tick_tiers (Loaded.ok wC8data) false (buildFigure wC8data false wC8pts) rfl).1
    (by decide)

/-- C9 fails on the code: a point with no timestamp (and no `x`) is
dropped SILENTLY — `date_str` is the falsy `''`, the `if date_str:` body
is skipped and no warning is printed — contradicting "each skipped point
produces a logged warning". -/
theorem c9_counterexample :
    processPoint { y := some (JVal.num 5) } = PointOutcome.skippedSilently := by decide

/-- C9 amended: a point whose value fails float conversion, or whose
truthy string timestamp fails ISO parsing, is skipped with a printed
warning; a point with a missing timestamp is skipped silently without a
warning; a point with a parseable timestamp but a missing value is
silently included with the value defaulted to 0; and a point whose
timestamp is a truthy non-string raises an uncaught AttributeError that
aborts the whole chart. -/
theorem c9_point_handling (s : String) (q : ℚ) (jv : JVal) (e : PyErr) (t : Int) :
    (pyFloat jv = Except.error e →
      processPoint { timestamp := some (JVal.str s), y := some jv } =
        PointOutcome.skippedWarned e) ∧
    (s ≠ "" → fromisoformat (zreplace s) = none →
      processPoint { timestamp := some (JVal.str s), y := some (JVal.num q) } =
        PointOutcome.skippedWarned
          (PyErr.valueError ("Invalid isoformat string: " ++ zreplace s))) ∧
    (processPoint { y := some (JVal.num q) } = PointOutcome.skippedSilently) ∧
    (s ≠ "" → fromisoformat (zreplace s) = some t →
      processPoint { timestamp := some (JVal.str s) } = PointOutcome.included t 0) ∧
    (q ≠ 0 →
      processPoint { timestamp := some (JVal.num q), y := some (JVal.num 1) } =
        PointOutcome.fatal (PyErr.attributeError "object has no attribute replace")) := by
  refine ⟨?_, ?_, ?_, ?_, ?_⟩
  · intro he
    simp [processPoint, Option.getD, he]
  · intro hs hiso
    simp [processPoint, Option.getD, pyFloat, truthy, hs, hiso]
  · simp [processPoint, Option.getD, pyFloat, truthy]
  · intro hs hiso
    simp [processPoint, Option.getD, pyFloat, truthy, hs, hiso]
  · intro hq
    simp [processPoint, Option.getD, pyFloat, truthy, hq]

/-- Witness for C9: a missing value is defaulted and included; an
unparseable timestamp is skipped with a warning. -/
theorem c9_point_handling_witness :
    processPoint { timestamp := some (JVal.str "2024-01-01") } =
      PointOutcome.included 1704067200 0 ∧
    processPoint { timestamp := some (JVal.str "garbage"), y := some (JVal.num 1) } =
      PointOutcome.skippedWarned
        (PyErr.valueError ("Invalid isoformat string: " ++ zreplace "garbage")) :=
  ⟨(c9_point_handling "2024-01-01" 0 JVal.null (PyErr.valueError "x") 1704067200).2.2.2.1
      (by decide) (by decide),
   (c9_point_handling "garbage" 1 JVal.null (PyErr.valueError "x") 0).2.1
      (by decide) (by decide)⟩

/-- C10: `generate_chart` is total in the embedding and, with any PNG back
end emitting at least one byte, the printed base64 string is non-empty —
so for every invocation with at least the data argument the `__main__`
block prints the image and the `sys.exit(1)` branch for a falsy result is
unreachable. -/
theorem c10_always_image (loads : String → Loaded) (render : ChartResult → List Nat)
    (hrender : ∀ r, render r ≠ []) (argv : List String) (h2 : 2 ≤ argv.length) :
    runMain loads render argv =
      ProcResult.printedImage (base64Encode (render (generate_chart
        (loads (argv.getD 1 ""))
        (decide (2 < argv.length) && (lowerStr (argv.getD 2 "") == "true"))))) ∧
    runMain loads render argv ≠ ProcResult.exit1Empty ∧
    0 < (base64Encode (render (generate_chart (loads (argv.getD 1 ""))
        (decide (2 < argv.length) && (lowerStr (argv.getD 2 "") == "true"))))).length := by
  have hlt : ¬ argv.length < 2 := not_lt.mpr h2
  have himg : base64Encode (render (generate_chart (loads (argv.getD 1 ""))
      (decide (2 < argv.length) && (lowerStr (argv.getD 2 "") == "true")))) ≠ "" :=
    base64Encode_ne_empty (hrender _)
  simp only [runMain]
  rw [if_neg hlt, if_pos himg]
  exact ⟨rfl, by simp, base64Encode_length_pos (hrender _)⟩

/-- Witness for C10: a concrete two-argument invocation never reaches the
empty-result exit. -/
theorem c10_always_image_witness :
    runMain wLoadsFail wRender ["generate_chart.py", "x"] ≠ ProcResult.exit1Empty :=
  (c10_always_image wLoadsFail wRender (fun r => by simp [wRender])
    ["generate_chart.py", "x"] (by decide)).2.1

end GenerateChart
